import Mathlib

/-!
Verification development for the weather-pulse-explorer repository.

The definitions below are a shallow embedding of the TypeScript source:

* `src/services/astronomicalData.ts` / `fetchAstronimicalData` — the
  two-provider acquisition coordinator;
* `src/services/saveAstronomicalData.ts` — the persistence step;
* `src/pages/Index.tsx` — the multi-date acquisition loop;
* `src/services/geocoding.ts` — the geocoder;
* `src/pages/Conclusions.tsx` — latitude correlation, seasonal patterns
  and per-location trends;
* `src/pages/Visualize.tsx` — filters and aggregate statistics.

Modelling conventions: JavaScript numbers are embedded as `ℚ` (exact
arithmetic; the floating-point rounding error of the original is not
modelled), absolute instants as `ℤ` epoch seconds (ISO-8601 timestamp
strings are order-isomorphic to their epoch values), and calendar dates
as `CivilDate` triples; `new Date("yyyy-mm-dd")` parses as UTC midnight,
whose day count since the epoch is computed by `daysFromCivil` exactly as
the JS engine does.  `Math.round x` is `⌊x + 1/2⌋`, which is Mathlib's
`round`.  `x.toFixed k` on the decimals arising here agrees with rounding
half away from zero; every concrete value used below is positive or a
non-tie, where this coincides with `round` as well.  Network effects are
passed in as explicit outcome values; JS object-keyed grouping is
embedded as first-encounter key order (`keysInOrder`) with `filter` per
key, and `Array.prototype.sort` (stable since ES2019) as a stable
insertion sort (`sortBy`).
-/

/-- `split(sep)` on a character list, for the single-character separators
(`":"`, `" "`, `"-"`) the source uses.  (The core `String.splitOn` is
defined by well-founded recursion on positions, which the kernel cannot
evaluate; this structural version computes the same splits.) -/
def splitOnChar (sep : Char) : List Char → List (List Char)
  | [] => [[]]
  | c :: cs =>
      let r := splitOnChar sep cs
      if c = sep then [] :: r
      else
        match r with
        | [] => [[c]]
        | t :: ts => (c :: t) :: ts

/-- `Number(...)` on an all-digit component such as `"06"`; `none` models
the components on which `Number` would yield `NaN`. -/
def digitsToNat? (cs : List Char) : Option ℕ :=
  if cs.isEmpty then none
  else cs.foldl (fun acc c =>
    match acc with
    | none => none
    | some n => if c.isDigit then some (n * 10 + (c.toNat - 48)) else none)
    (some 0)

/-- `.toLowerCase()` (character-wise lowering, as for the ASCII names the
source handles). -/
def toLowerStr (s : String) : String := String.mk (s.data.map Char.toLower)

/-- `.trim()`: strip leading and trailing whitespace. -/
def trimStr (s : String) : String :=
  String.mk (((s.data.dropWhile Char.isWhitespace).reverse.dropWhile
    Char.isWhitespace).reverse)

/-- `hay.includes needle` on JS strings: `needle` occurs as a contiguous
substring of `hay` (always true for the empty needle). -/
def strContains (hay needle : String) : Bool :=
  hay.data.tails.any (fun t => needle.data.isPrefixOf t)

/-- The keys of a JS object built by insertion, in first-encounter order. -/
def keysInOrder [BEq α] (l : List α) : List α :=
  l.foldl (fun acc k => if acc.contains k then acc else acc ++ [k]) []

/-- Stable insertion: `x` is placed before the first element `y` for which
`le x y` fails, hence after every earlier element it ties with. -/
def insertBy (le : α → α → Bool) (x : α) : List α → List α
  | [] => [x]
  | y :: ys => if le x y then x :: y :: ys else y :: insertBy le x ys

/-- Stable sort (the behaviour of ES2019 `Array.prototype.sort`): `le x y`
means `x` may be placed before `y`. -/
def sortBy (le : α → α → Bool) (l : List α) : List α :=
  l.foldr (insertBy le) []

/-- `Math.max(...xs)` for a nonempty spread (`0` is never reached by the
call sites, which guard for emptiness). -/
def listMax : List ℚ → ℚ
  | [] => 0
  | x :: xs => xs.foldl max x

/-- `Math.min(...xs)` for a nonempty spread. -/
def listMin : List ℚ → ℚ
  | [] => 0
  | x :: xs => xs.foldl min x

/-- `parseFloat(x.toFixed(1))`: round to one decimal place. -/
def round1 (x : ℚ) : ℚ := (round (x * 10) : ℤ) / 10

/-- A calendar date as the JS engine sees a `"yyyy-mm-dd"` string
(UTC midnight). -/
structure CivilDate where
  year : ℤ
  month : ℕ
  day : ℕ
deriving DecidableEq, Repr

/-- Days since 1970-01-01 of a civil date: the value of
`new Date("yyyy-mm-dd").getTime() / 86400000`. -/
def daysFromCivil (dt : CivilDate) : ℤ :=
  let y : ℤ := if dt.month ≤ 2 then dt.year - 1 else dt.year
  let era : ℤ := Int.fdiv y 400
  let yoe : ℤ := y - era * 400
  let mp : ℤ := (dt.month : ℤ) + (if 2 < dt.month then -3 else 9)
  let doy : ℤ := (153 * mp + 2) / 5 + (dt.day : ℤ) - 1
  let doe : ℤ := yoe * 365 + yoe / 4 - yoe / 100 + doy
  era * 146097 + doe - 719468

/-- `"yyyy-mm-dd"` → `CivilDate` (well-formed inputs; `Number(...)` of a
non-numeric component, which yields `NaN` in JS, is not modelled). -/
def parseCivilDate (s : String) : CivilDate :=
  match (splitOnChar '-' s.data).map digitsToNat? with
  | [some y, some m, some d] => ⟨(y : ℤ), m, d⟩
  | _ => ⟨1970, 1, 1⟩

/-- The `parseTime` helper of `fetchAstronimicalData`: parse an
`"hh:mm:ss AM/PM"` string against a base day (UTC midnight of the report
date) and return epoch seconds, exactly as
`new Date(baseDateStr + "T00:00:00Z")` followed by `setUTCHours(h, m, s)`. -/
def parseTime (baseDay : ℤ) (timeStr : String) : ℤ :=
  let parts := splitOnChar ' ' timeStr.data
  let timePart := parts.headD []
  let modifier := (parts.drop 1).headD []
  let nums := (splitOnChar ':' timePart).map (fun t => (digitsToNat? t).getD 0)
  let h := nums.headD 0
  let m := (nums.drop 1).headD 0
  let s := (nums.drop 2).headD 0
  let h2 := if modifier = "PM".data && h != 12 then h + 12
            else if modifier = "AM".data && h == 12 then 0 else h
  baseDay * 86400 + (h2 : ℤ) * 3600 + (m : ℤ) * 60 + (s : ℤ)

/-- `"HH:MM:SS".split(':').map(Number)` folded into total seconds. -/
def hmsToSeconds (s : String) : ℚ :=
  let parts := (splitOnChar ':' s.data).map
    (fun t => (((digitsToNat? t).getD 0 : ℕ) : ℚ))
  let hours := parts.headD 0
  let minutes := (parts.drop 1).headD 0
  let seconds := (parts.drop 2).headD 0
  hours * 3600 + minutes * 60 + seconds

/-- Payload of a `sunrise-sunset.org` (provider A) response: already
absolute timestamps and a day length already in seconds. -/
structure AResults where
  sunrise : ℤ
  sunset : ℤ
  solar_noon : ℤ
  day_length : ℚ
deriving DecidableEq, Repr

structure AResp where
  results : AResults
  status : String
deriving DecidableEq, Repr

/-- Payload of a `sunrisesunset.io` (provider B) response: a report date,
local `"hh:mm:ss AM/PM"` wall-clock strings, a `"HH:MM:SS"` day length and
a UTC offset in minutes. -/
structure BResults where
  date : String
  sunrise : String
  sunset : String
  solar_noon : String
  day_length : String
  utc_offset : ℤ
deriving DecidableEq, Repr

structure BResp where
  results : BResults
  status : String
deriving DecidableEq, Repr

/-- The normalized `data` part of an `AstronomicalDataResult`. -/
structure ResultData where
  sunrise : ℤ
  sunset : ℤ
  day_length : ℚ
  solar_noon : ℤ
deriving DecidableEq, Repr

structure AstronomicalDataResult where
  data : ResultData
  source : String
deriving DecidableEq, Repr

/-- Provider B normalization inside `fetchAstronimicalData`: convert the
day length, parse the three 12-hour time strings against the report date,
then add `utc_offset * 60 * 1000` milliseconds (the code adds the offset
to the local wall-clock value). -/
def normalizeB (r : BResults) : ResultData :=
  let dayLengthSeconds := hmsToSeconds r.day_length
  let baseDay := daysFromCivil (parseCivilDate r.date)
  let offsetSec := r.utc_offset * 60
  { sunrise := parseTime baseDay r.sunrise + offsetSec
    sunset := parseTime baseDay r.sunset + offsetSec
    day_length := dayLengthSeconds
    solar_noon := parseTime baseDay r.solar_noon + offsetSec }

/-- Outcome of one adapter's network round-trip: `none` is a rejected
promise or a non-`ok` HTTP response (either way the adapter contributes
nothing); `some` is a parsed JSON body, whose `status` field is still to
be checked. -/
def fetchAstronimicalData (aResp : Option AResp) (bResp : Option BResp) :
    List AstronomicalDataResult :=
  let r1 : List AstronomicalDataResult :=
    match aResp with
    | some a =>
        if a.status = "OK" then
          [{ data := { sunrise := a.results.sunrise, sunset := a.results.sunset,
                       day_length := a.results.day_length,
                       solar_noon := a.results.solar_noon },
             source := "sunrise-sunset.org" }]
        else []
    | none => []
  let r2 : List AstronomicalDataResult :=
    match bResp with
    | some b =>
        if b.status = "OK" then
          [{ data := normalizeB b.results, source := "sunrisesunset.io" }]
        else []
    | none => []
  r1 ++ r2

/-- The user-visible "API Error" toast fires exactly when the result list
is empty. -/
def fetchWarning (aResp : Option AResp) (bResp : Option BResp) : Bool :=
  (fetchAstronimicalData aResp bResp).isEmpty

def aSucceeds : Option AResp → Bool
  | some a => a.status == "OK"
  | none => false

def bSucceeds : Option BResp → Bool
  | some b => b.status == "OK"
  | none => false

/-- One row of the `astronomical_data` insert in `saveAstronomicalData`
and `Index.tsx` (the `iss_*` and `people_*` columns are constants there). -/
structure SavedRecord where
  location : String
  latitude : ℚ
  longitude : ℚ
  date : String
  sunrise : ℤ
  sunset : ℤ
  day_length : ℚ
  solar_noon : ℤ
  iss_passes : ℕ
  people_in_space : ℕ
  source : String
deriving DecidableEq, Repr

/-- The insert object built for one adapter result. -/
def mkRow (location : String) (lat lng : ℚ) (formattedDate : String)
    (r : AstronomicalDataResult) : SavedRecord :=
  { location := location, latitude := lat, longitude := lng,
    date := formattedDate,
    sunrise := r.data.sunrise, sunset := r.data.sunset,
    day_length := r.data.day_length, solar_noon := r.data.solar_noon,
    iss_passes := 0, people_in_space := 0,
    source := r.source }

/-- `saveAstronomicalData`: one insert per response; an insert error is
only logged, so the list of attempted inserts is the full map. -/
def saveAstronomicalData (apiResponses : List AstronomicalDataResult)
    (location : String) (lat lng : ℚ) (formattedDate : String) :
    List SavedRecord :=
  apiResponses.map (mkRow location lat lng formattedDate)

/-- Result of the date loop in `Index.tsx`: the per-date progress counter,
all rows inserted, and the date count shown by the final success toast
(`Collected astronomical data for N date(s) successfully`). -/
structure LoopResult where
  completedDates : ℕ
  saved : List SavedRecord
  reportedDates : ℕ
deriving DecidableEq, Repr

/-- The `for (const currentDate of datesToProcess)` loop of `Index.tsx`:
an empty response list hits `continue` (no insert, no counter bump);
otherwise each response is inserted and the counter is bumped. -/
def loopStep (location : String) (lat lng : ℚ)
    (fetch : String → List AstronomicalDataResult)
    (acc : ℕ × List SavedRecord) (d : String) : ℕ × List SavedRecord :=
  let apiResponses := fetch d
  if apiResponses.isEmpty then acc
  else (acc.1 + 1, acc.2 ++ apiResponses.map (mkRow location lat lng d))

def acquisitionLoop (location : String) (lat lng : ℚ) (dates : List String)
    (fetch : String → List AstronomicalDataResult) : LoopResult :=
  let r := dates.foldl (loopStep location lat lng fetch) (0, [])
  { completedDates := r.1, saved := r.2, reportedDates := dates.length }

/-- The static fallback table of `src/services/geocoding.ts`, in source
order (JS object insertion order). -/
def cityCoordinates : List (String × ℚ × ℚ) :=
  [("new york", 40.7128, -74.006),
   ("los angeles", 34.0522, -118.2437),
   ("chicago", 41.8781, -87.6298),
   ("houston", 29.7604, -95.3698),
   ("phoenix", 33.4484, -112.074),
   ("philadelphia", 39.9526, -75.1652),
   ("san antonio", 29.4241, -98.4936),
   ("san diego", 32.7157, -117.1611),
   ("dallas", 32.7767, -96.797),
   ("san francisco", 37.7749, -122.4194),
   ("seattle", 47.6062, -122.3321),
   ("boston", 42.3601, -71.0589),
   ("miami", 25.7617, -80.1918),
   ("london", 51.5074, -0.1278),
   ("paris", 48.8566, 2.3522),
   ("tokyo", 35.6762, 139.6503),
   ("sydney", -33.8688, 151.2093),
   ("rio de janeiro", -22.9068, -43.1729),
   ("cairo", 30.0444, 31.2357),
   ("moscow", 55.7558, 37.6173)]

/-- `cityCoordinates[normalized]`: exact JS object key access. -/
def exactLookup (k : String) : Option (ℚ × ℚ) :=
  (cityCoordinates.find? (fun e => e.1 == k)).map (fun e => e.2)

/-- The `for (const [city, coords] of Object.entries(cityCoordinates))`
scan: first entry whose key contains or is contained in the normalized
name. -/
def substringLookup (normalized : String) : Option (ℚ × ℚ) :=
  (cityCoordinates.find?
    (fun e => strContains normalized e.1 || strContains e.1 normalized)).map
    (fun e => e.2)

/-- Outcome of the live Nominatim lookup: `success` is an `ok` response
with a nonempty result array; `noMatch` is an `ok` response with an empty
array; `failed` is a network error or non-`ok` HTTP status (the code
throws and lands in the `catch` block). -/
inductive GeoLive where
  | success (lat lng : ℚ)
  | noMatch
  | failed
deriving DecidableEq, Repr

/-- `getCoordinates` of `src/services/geocoding.ts`: exact static-table
match first, then the live service, then the static-table substring scan
(run both on the empty-result path and in the `catch` block), else `null`. -/
def getCoordinates (cityName : String) (live : GeoLive) : Option (ℚ × ℚ) :=
  let normalized := trimStr (toLowerStr cityName)
  match exactLookup normalized with
  | some c => some c
  | none =>
      match live with
      | .success lat lng => some (lat, lng)
      | .noMatch => substringLookup normalized
      | .failed => substringLookup normalized

/-- Modelled from the spec's words, for comparison with `getCoordinates`:
an ordered strategy that consults the live service first and only then the
static table by substring containment, returning the first match. -/
def specOrderedGeocode (cityName : String) (live : GeoLive) : Option (ℚ × ℚ) :=
  match live with
  | .success lat lng => some (lat, lng)
  | _ => substringLookup (trimStr (toLowerStr cityName))

/-- A row of the `astronomical_data` table as read by the analytics pages
(`id` and `created_at` are not used by any statistic modelled here). -/
structure AstronomicalDataItem where
  location : String
  latitude : ℚ
  longitude : ℚ
  date : CivilDate
  sunrise : ℤ
  sunset : ℤ
  day_length : ℚ
  solar_noon : ℤ
  source : String
deriving DecidableEq, Repr

namespace Conclusions

/-- `n * sumXY - sumX * sumY` of `latitudeInsight` (x = latitude,
y = day_length / 60). -/
def corrNum (l : List AstronomicalDataItem) : ℚ :=
  let latitudes := l.map (fun it => it.latitude)
  let dayLengths := l.map (fun it => it.day_length / 60)
  let n : ℚ := l.length
  let sumX := latitudes.sum
  let sumY := dayLengths.sum
  let sumXY := (l.map (fun it => it.latitude * (it.day_length / 60))).sum
  n * sumXY - sumX * sumY

/-- The square of the `Math.sqrt` argument of `latitudeInsight`'s
denominator. -/
def corrDenSq (l : List AstronomicalDataItem) : ℚ :=
  let latitudes := l.map (fun it => it.latitude)
  let dayLengths := l.map (fun it => it.day_length / 60)
  let n : ℚ := l.length
  let sumX := latitudes.sum
  let sumY := dayLengths.sum
  let sumXSquare := (l.map (fun it => it.latitude * it.latitude)).sum
  let sumYSquare := (l.map (fun it => (it.day_length / 60) * (it.day_length / 60))).sum
  (n * sumXSquare - sumX * sumX) * (n * sumYSquare - sumY * sumY)

/-- `denominator === 0 ? 0 : numerator / denominator` with
`denominator = Math.sqrt corrDenSq`. -/
noncomputable def correlationValue (l : List AstronomicalDataItem) : ℝ :=
  if corrDenSq l = 0 then 0
  else (corrNum l : ℝ) / Real.sqrt (corrDenSq l : ℝ)

/-- `parseFloat(x.toFixed(2))`: round to two decimal places. -/
noncomputable def round2R (x : ℝ) : ℝ := (round (x * 100) : ℤ) / 100

/-- `latitudeInsight` of `Conclusions.tsx`: `null` below three records,
otherwise the two-decimal-rounded correlation coefficient. -/
noncomputable def latitudeInsight (l : List AstronomicalDataItem) : Option ℝ :=
  if l.length < 3 then none
  else some (round2R (correlationValue l))

inductive Season where
  | winter
  | spring
  | summer
  | fall
deriving DecidableEq, Repr

/-- `seasonOrder` used for the final sort of the seasonal cards. -/
def seasonOrder : Season → ℕ
  | .winter => 0
  | .spring => 1
  | .summer => 2
  | .fall => 3

/-- Season of a zero-based `getMonth()` value, exactly as branched in
`seasonalPatterns`. -/
def seasonOfMonth0 (month : ℕ) : Season :=
  if 2 ≤ month ∧ month ≤ 4 then .spring
  else if 5 ≤ month ∧ month ≤ 7 then .summer
  else if 8 ≤ month ∧ month ≤ 10 then .fall
  else .winter

/-- Season of a record's date; `getMonth()` of a `"yyyy-mm-dd"` UTC date
is its one-based month minus one. -/
def seasonOf (d : CivilDate) : Season := seasonOfMonth0 (d.month - 1)

/-- Modelled from the spec's words (Dec–Feb = Winter, Mar–May = Spring,
Jun–Aug = Summer, Sep–Nov = Fall) on the one-based month, for comparison
with `seasonOf`. -/
def specSeasonOfMonth (m : ℕ) : Season :=
  if m = 12 ∨ m ≤ 2 then .winter
  else if m ≤ 5 then .spring
  else if m ≤ 8 then .summer
  else .fall

structure SeasonalPattern where
  season : Season
  avgDayLength : ℤ
  locations : List String
deriving DecidableEq, Repr

/-- The per-season card: mean day length in whole minutes and the top
three locations by average day length (stable descending sort). -/
def seasonalPattern (items : List AstronomicalDataItem) (s : Season) :
    SeasonalPattern :=
  let avgDayLength : ℤ :=
    round ((items.map (fun it => it.day_length)).sum / (items.length : ℚ) / 60)
  let locKeys := keysInOrder (items.map (fun it => it.location))
  let locationAvgs := locKeys.map (fun k =>
    let grp := items.filter (fun it => it.location == k)
    (k, (grp.map (fun it => it.day_length)).sum / (grp.length : ℚ) / 60))
  let sorted := sortBy (fun a b => decide (b.2 ≤ a.2)) locationAvgs
  { season := s, avgDayLength := avgDayLength,
    locations := (sorted.take 3).map (fun e => e.1) }

/-- `seasonalPatterns` of `Conclusions.tsx`: group records by season in
first-encounter order, build each card, then sort by `seasonOrder`. -/
def seasonalPatterns (l : List AstronomicalDataItem) : List SeasonalPattern :=
  if l.isEmpty then []
  else
    let keys := keysInOrder (l.map (fun it => seasonOf it.date))
    let pats := keys.map (fun s =>
      seasonalPattern (l.filter (fun it => seasonOf it.date == s)) s)
    sortBy (fun a b => decide (seasonOrder a.season ≤ seasonOrder b.season)) pats

inductive Trend where
  | increasing
  | decreasing
  | stable
deriving DecidableEq, Repr

structure LocationTrend where
  location : String
  trend : Trend
  changeRate : ℚ
deriving DecidableEq, Repr

/-- The `totalChange` accumulation of `locationTrends` over the sorted
list: each consecutive pair with a positive day gap contributes its
per-day rate in minutes; other pairs contribute nothing. -/
def totalChange : List AstronomicalDataItem → ℚ
  | a :: b :: rest =>
      (let daysDiff : ℚ := ((daysFromCivil b.date - daysFromCivil a.date : ℤ) : ℚ)
       if 0 < daysDiff then
         (b.day_length / 60 - a.day_length / 60) / daysDiff
       else 0) + totalChange (b :: rest)
  | _ => 0

/-- Ascending stable sort by date, the
`items.sort((a, b) => dateA - dateB)` of `locationTrends`. -/
def sortByDate (items : List AstronomicalDataItem) : List AstronomicalDataItem :=
  sortBy (fun a b => decide (daysFromCivil a.date ≤ daysFromCivil b.date)) items

/-- `totalChange / (items.length - 1)` on the date-sorted group. -/
def avgChange (items : List AstronomicalDataItem) : ℚ :=
  totalChange (sortByDate items) / ((items.length : ℚ) - 1)

/-- The trend record built for one location group. -/
def trendOf (location : String) (items : List AstronomicalDataItem) :
    LocationTrend :=
  let avg := avgChange items
  { location := location,
    trend := if avg > 1 then .increasing
             else if avg < -1 then .decreasing
             else .stable,
    changeRate := round1 avg }

/-- `locationTrends` of `Conclusions.tsx`: group by exact location string
in first-encounter order, keep groups with at least two records, build
each trend, sort by `Math.abs(changeRate)` descending (stable). -/
def locationTrends (l : List AstronomicalDataItem) : List LocationTrend :=
  if l.isEmpty then []
  else
    let keys := keysInOrder (l.map (fun it => it.location))
    let groups := keys.map (fun k => (k, l.filter (fun it => it.location == k)))
    let trends := (groups.filter (fun g => 1 < g.2.length)).map
      (fun g => trendOf g.1 g.2)
    sortBy (fun a b => decide (|b.changeRate| ≤ |a.changeRate|)) trends

/-- Modelled from the spec's words: the list of per-step rates
`(dayLength_i − dayLength_{i−1}) / daysBetween` in minutes per day over
consecutive pairs of the date-sorted group. -/
def specStepRates : List AstronomicalDataItem → List ℚ
  | a :: b :: rest =>
      ((b.day_length - a.day_length) / 60 /
        ((daysFromCivil b.date - daysFromCivil a.date : ℤ) : ℚ)) ::
      specStepRates (b :: rest)
  | _ => []

/-- The per-step rates restricted to consecutive pairs whose day gap is
positive (the only pairs `totalChange` lets contribute). -/
def posStepRates : List AstronomicalDataItem → List ℚ
  | a :: b :: rest =>
      (if 0 < ((daysFromCivil b.date - daysFromCivil a.date : ℤ) : ℚ) then
        [(b.day_length / 60 - a.day_length / 60) /
          ((daysFromCivil b.date - daysFromCivil a.date : ℤ) : ℚ)]
       else []) ++ posStepRates (b :: rest)
  | _ => []

end Conclusions

namespace Visualize

/-- The filter state of `Visualize.tsx`: a location substring (the empty
string is falsy and disables the filter) and an optional date range. -/
structure Filters where
  cityFilter : String
  startDate : Option CivilDate
  endDate : Option CivilDate
deriving DecidableEq, Repr

def emptyFilters : Filters := { cityFilter := "", startDate := none, endDate := none }

/-- The date-range predicate of `applyFilters`: keep an item unless a set
bound excludes it (`isAfter` / `isBefore` on UTC midnights is day-number
comparison; `isSameDay` is civil-date equality). -/
def dateInRange (f : Filters) (d : CivilDate) : Bool :=
  (match f.startDate with
   | some sd => decide (daysFromCivil sd < daysFromCivil d) || (d == sd)
   | none => true) &&
  (match f.endDate with
   | some ed => decide (daysFromCivil d < daysFromCivil ed) || (d == ed)
   | none => true)

/-- `applyFilters` of `Visualize.tsx`. -/
def applyFilters (f : Filters) (data : List AstronomicalDataItem) :
    List AstronomicalDataItem :=
  let d1 := if f.cityFilter ≠ "" then
      data.filter (fun it =>
        strContains (toLowerStr it.location) (toLowerStr f.cityFilter))
    else data
  if f.startDate.isSome || f.endDate.isSome then
    d1.filter (fun it => dateInRange f it.date)
  else d1

structure LocationStat where
  location : String
  avgDayLength : ℤ
deriving DecidableEq, Repr

structure SourceCount where
  name : String
  value : ℕ
deriving DecidableEq, Repr

structure Stats where
  avgDayLength : ℤ
  maxDayLength : ℤ
  minDayLength : ℤ
  locationStats : List LocationStat
  sourceData : List SourceCount
deriving DecidableEq, Repr

/-- The `stats` memo of `Visualize.tsx`: `null` on an empty record set or
an empty filtered set, else the aggregate and grouped statistics over the
filtered records. -/
def stats (f : Filters) (data : List AstronomicalDataItem) : Option Stats :=
  if data.isEmpty then none
  else
    let filteredData := applyFilters f data
    if filteredData.isEmpty then none
    else
      let totalDayLength := (filteredData.map (fun it => it.day_length)).sum
      let avgDayLength := round (totalDayLength / (filteredData.length : ℚ) / 60)
      let dayLengths := filteredData.map (fun it => it.day_length / 60)
      let locKeys := keysInOrder (filteredData.map (fun it => it.location))
      let locationStats := locKeys.map (fun k =>
        let items := filteredData.filter (fun it => it.location == k)
        LocationStat.mk k
          (round ((items.map (fun it => it.day_length)).sum / (items.length : ℚ) / 60)))
      let srcKeys := keysInOrder (filteredData.map (fun it => it.source))
      let sourceData := srcKeys.map (fun k =>
        SourceCount.mk k (filteredData.filter (fun it => it.source == k)).length)
      some { avgDayLength := avgDayLength,
             maxDayLength := round (listMax dayLengths),
             minDayLength := round (listMin dayLengths),
             locationStats := locationStats,
             sourceData := sourceData }

structure ScatterPoint where
  x : ℚ
  y : ℚ
  z : ℚ
  name : String
deriving DecidableEq, Repr

/-- The `scatterData` memo of `Visualize.tsx` (the latitude / day-length
data of the scatter chart). -/
def scatterData (f : Filters) (data : List AstronomicalDataItem) :
    List ScatterPoint :=
  if data.isEmpty then []
  else (applyFilters f data).map (fun it =>
    { x := it.latitude, y := it.day_length / 60, z := 1, name := it.location })

end Visualize

section HelperLemmas

theorem insertBy_length (le : α → α → Bool) (x : α) (l : List α) :
    (insertBy le x l).length = l.length + 1 := by
  induction l with
  | nil => rfl
  | cons y ys ih =>
      simp only [insertBy]
      split
      · simp
      · simp [ih]

theorem sortBy_length (le : α → α → Bool) (l : List α) :
    (sortBy le l).length = l.length := by
  induction l with
  | nil => rfl
  | cons a t ih => simp [sortBy, List.foldr] at ih ⊢; rw [insertBy_length, ih]

theorem length_filter_lt_of_mem {l : List α} {p : α → Bool} {x : α}
    (hx : x ∈ l) (hpx : p x = false) : (l.filter p).length < l.length := by
  induction l with
  | nil => cases hx
  | cons a t ih =>
      rcases List.mem_cons.mp hx with rfl | hxt
      · simp only [List.filter_cons, hpx]
        exact Nat.lt_succ_of_le (List.length_filter_le _ _)
      · by_cases hpa : p a
        · simpa [List.filter_cons, hpa] using Nat.succ_lt_succ (ih hxt)
        · simp only [List.filter_cons, hpa]
          exact Nat.lt_succ_of_lt (ih hxt)

end HelperLemmas

/-- C1: the claim asserts that a malformed normalized record (sunrise not
strictly before sunset, or day length off by more than a second from
sunset − sunrise) is detected and never stored.  The code has no such
check: here a provider-A response with `status = "OK"` whose sunrise
(epoch second 100) is after its sunset (epoch second 50) and whose day
length (3600 s) disagrees with sunset − sunrise flows through
`fetchAstronimicalData` and `saveAstronomicalData` into a stored row. -/
theorem C1_counterexample :
    ∃ r ∈ saveAstronomicalData
        (fetchAstronimicalData
          (some { results := { sunrise := 100, sunset := 50, solar_noon := 75,
                               day_length := 3600 }, status := "OK" })
          none)
        "Oslo" 10 20 "2024-06-01",
      r.sunset ≤ r.sunrise ∧ 1 < |r.day_length - ((r.sunset : ℚ) - (r.sunrise : ℚ))| := by
  refine ⟨mkRow "Oslo" 10 20 "2024-06-01"
    { data := { sunrise := 100, sunset := 50, day_length := 3600, solar_noon := 75 },
      source := "sunrise-sunset.org" },
    by simp [saveAstronomicalData, fetchAstronimicalData],
    by decide, by norm_num [mkRow]⟩

/-- C1 (amended): no malformed-record validation exists anywhere between
normalization and persistence: `saveAstronomicalData` attempts one insert
per adapter result, unconditionally, so every acquisition result —
malformed or not — is passed to the store. -/
theorem C1_amended (apiResponses : List AstronomicalDataResult)
    (location : String) (lat lng : ℚ) (formattedDate : String) :
    (saveAstronomicalData apiResponses location lat lng formattedDate).length
        = apiResponses.length
    ∧ ∀ r ∈ apiResponses,
        mkRow location lat lng formattedDate r
          ∈ saveAstronomicalData apiResponses location lat lng formattedDate := by
  refine ⟨List.length_map _ _, fun r hr => List.mem_map_of_mem _ hr⟩

/-- Witness for `C1_amended` at a concrete malformed response. -/
theorem C1_amended_witness :
    mkRow "Oslo" 10 20 "2024-06-01"
        { data := { sunrise := 100, sunset := 50, day_length := 3600,
                    solar_noon := 75 },
          source := "sunrise-sunset.org" }
      ∈ saveAstronomicalData
          [{ data := { sunrise := 100, sunset := 50, day_length := 3600,
                       solar_noon := 75 },
             source := "sunrise-sunset.org" }]
          "Oslo" 10 20 "2024-06-01" :=
  (C1_amended _ "Oslo" 10 20 "2024-06-01").2 _ (by simp)

/-- C2: per acquisition, the result of `fetchAstronimicalData` holds
exactly one `{data, source}` entry per adapter that succeeded (returned
a parsed body with `status = "OK"`): one element when exactly one of
sunrise-sunset.org and sunrisesunset.io succeeds, one record from each
source when both succeed, and the empty list — exactly when the
user-visible warning toast fires — only when both fail. -/
theorem C2_acquisition (a : Option AResp) (b : Option BResp) :
    ((fetchAstronimicalData a b).length
        = (if aSucceeds a then 1 else 0) + (if bSucceeds b then 1 else 0))
    ∧ (aSucceeds a = true → bSucceeds b = false →
        ∃ x, fetchAstronimicalData a b = [x] ∧ x.source = "sunrise-sunset.org")
    ∧ (aSucceeds a = false → bSucceeds b = true →
        ∃ x, fetchAstronimicalData a b = [x] ∧ x.source = "sunrisesunset.io")
    ∧ (aSucceeds a = true → bSucceeds b = true →
        (fetchAstronimicalData a b).map (fun r => r.source)
          = ["sunrise-sunset.org", "sunrisesunset.io"])
    ∧ (fetchAstronimicalData a b = [] ↔ (aSucceeds a = false ∧ bSucceeds b = false))
    ∧ (fetchWarning a b = true ↔ fetchAstronimicalData a b = []) := by
  rcases a with _ | ⟨ar, as⟩ <;> rcases b with _ | ⟨br, bs⟩
  · simp [fetchAstronimicalData, aSucceeds, bSucceeds, fetchWarning,
      List.isEmpty_iff]
  · by_cases hbs : bs = "OK" <;>
      simp [fetchAstronimicalData, aSucceeds, bSucceeds, fetchWarning,
        List.isEmpty_iff, hbs]
  · by_cases has : as = "OK" <;>
      simp [fetchAstronimicalData, aSucceeds, bSucceeds, fetchWarning,
        List.isEmpty_iff, has]
  · by_cases has : as = "OK" <;> by_cases hbs : bs = "OK" <;>
      simp [fetchAstronimicalData, aSucceeds, bSucceeds, fetchWarning,
        List.isEmpty_iff, has, hbs]

/-- Witness for `C2_acquisition`: provider A succeeded alone, so the
result is a one-element list from sunrise-sunset.org. -/
theorem C2_acquisition_witness :
    ∃ x, fetchAstronimicalData
        (some { results := { sunrise := 1000, sunset := 2000, solar_noon := 1500,
                             day_length := 1000 }, status := "OK" })
        none = [x] ∧ x.source = "sunrise-sunset.org" :=
  (C2_acquisition _ none).2.1 (by decide) (by decide)

/-- C3: the provider-B adapter does convert `day_length` `"HH:MM:SS"` to
`hours*3600 + minutes*60 + seconds` and does parse the 12-hour
`"hh:mm:ss AM/PM"` form against the report date, but it applies the
`utc_offset` by adding it to the local wall-clock value: for
`sunrise = "06:00:00 AM"`, report date `"2024-06-01"`, `utc_offset = -240`
the normalized sunrise is 2024-06-01T02:00:00Z, not the
2024-06-01T10:00:00Z instant the claim (and the spec's test property)
requires. -/
theorem C3_offset_bug :
    hmsToSeconds "14:33:22" = 14 * 3600 + 33 * 60 + 22
    ∧ parseTime 0 "06:00:00 AM" = 6 * 3600
    ∧ parseTime 0 "08:30:00 PM" = 20 * 3600 + 30 * 60
    ∧ (normalizeB { date := "2024-06-01", sunrise := "06:00:00 AM",
                    sunset := "08:00:00 PM", solar_noon := "01:00:00 PM",
                    day_length := "14:00:00", utc_offset := -240 }).sunrise
        = daysFromCivil ⟨2024, 6, 1⟩ * 86400 + 2 * 3600
    ∧ (normalizeB { date := "2024-06-01", sunrise := "06:00:00 AM",
                    sunset := "08:00:00 PM", solar_noon := "01:00:00 PM",
                    day_length := "14:00:00", utc_offset := -240 }).sunrise
        ≠ daysFromCivil ⟨2024, 6, 1⟩ * 86400 + 10 * 3600 := by
  refine ⟨?_, by decide, by decide, by decide, by decide⟩
  have h : hmsToSeconds "14:33:22"
      = ((14 : ℕ) : ℚ) * 3600 + ((33 : ℕ) : ℚ) * 60 + ((22 : ℕ) : ℚ) := rfl
  rw [h]; norm_num

theorem loopStep_foldl (location : String) (lat lng : ℚ)
    (fetch : String → List AstronomicalDataResult) :
    ∀ (dates : List String) (acc : ℕ × List SavedRecord),
      dates.foldl (loopStep location lat lng fetch) acc
        = (acc.1 + (dates.filter (fun d => !(fetch d).isEmpty)).length,
           acc.2 ++ dates.flatMap (fun d => (fetch d).map (mkRow location lat lng d)))
  | [], acc => by simp
  | d :: t, acc => by
      rw [List.foldl_cons, loopStep_foldl location lat lng fetch t]
      by_cases hd : (fetch d).isEmpty
      · have hnil : fetch d = [] := List.isEmpty_iff.mp hd
        simp [loopStep, hd, hnil]
      · have hR : loopStep location lat lng fetch acc d
            = (acc.1 + 1, acc.2 ++ (fetch d).map (mkRow location lat lng d)) := by
          simp [loopStep, hd]
        rw [hR]
        simp only [Prod.mk.injEq]
        constructor
        · simp [List.filter_cons, hd]
          omega
        · simp [List.flatMap_cons, List.append_assoc]

/-- C8: the multi-date loop is not aborted by a date for which every
provider fails, and the claim reads the final report's succeeded count as
the number of dates with at least one record.  Here, with one failing and
one succeeding date, the internal counter is 1 but the final success
toast reports all 2 requested dates — the reported count does not equal
the number of succeeding dates. -/
theorem C8_counterexample :
    (acquisitionLoop "Oslo" 10 20 ["2024-06-01", "2024-06-02"]
        (fun d => if d = "2024-06-02" then
          [{ data := { sunrise := 1000, sunset := 2000, day_length := 1000,
                       solar_noon := 1500 }, source := "sunrise-sunset.org" }]
          else [])).reportedDates = 2
    ∧ (acquisitionLoop "Oslo" 10 20 ["2024-06-01", "2024-06-02"]
        (fun d => if d = "2024-06-02" then
          [{ data := { sunrise := 1000, sunset := 2000, day_length := 1000,
                       solar_noon := 1500 }, source := "sunrise-sunset.org" }]
          else [])).completedDates = 1
    ∧ (2 : ℕ) ≠ 1 := by
  refine ⟨by decide, by decide, by decide⟩

/-- C8 (amended): a date for which every provider fails does not abort the
loop — every date's results are persisted regardless of earlier failures —
and the internal completed-dates counter equals the number of dates that
produced at least one record, strictly less than the total whenever some
date produced none; the final success toast, however, reports the total
number of requested dates, not that counter. -/
theorem C8_amended (location : String) (lat lng : ℚ) (dates : List String)
    (fetch : String → List AstronomicalDataResult) :
    (acquisitionLoop location lat lng dates fetch).saved
        = dates.flatMap (fun d => (fetch d).map (mkRow location lat lng d))
    ∧ (acquisitionLoop location lat lng dates fetch).completedDates
        = (dates.filter (fun d => !(fetch d).isEmpty)).length
    ∧ (acquisitionLoop location lat lng dates fetch).reportedDates = dates.length
    ∧ ((∃ d ∈ dates, fetch d = []) →
        (acquisitionLoop location lat lng dates fetch).completedDates
          < dates.length) := by
  have h := loopStep_foldl location lat lng fetch dates (0, [])
  refine ⟨?_, ?_, rfl, ?_⟩
  · simp [acquisitionLoop, h]
  · simp [acquisitionLoop, h]
  · rintro ⟨d, hd, hnil⟩
    have : (acquisitionLoop location lat lng dates fetch).completedDates
        = (dates.filter (fun d => !(fetch d).isEmpty)).length := by
      simp [acquisitionLoop, h]
    rw [this]
    exact length_filter_lt_of_mem hd (by simp [hnil])

/-- Witness for `C8_amended`: with the second of two dates failing, the
completed-dates counter stays below the requested-date count. -/
theorem C8_amended_witness :
    (acquisitionLoop "Oslo" 10 20 ["2024-06-01", "2024-06-02"]
        (fun d => if d = "2024-06-02" then
          [{ data := { sunrise := 1000, sunset := 2000, day_length := 1000,
                       solar_noon := 1500 }, source := "sunrise-sunset.org" }]
          else [])).completedDates < 2 :=
  (C8_amended "Oslo" 10 20 ["2024-06-01", "2024-06-02"] _).2.2.2
    ⟨"2024-06-01", by decide, by decide⟩

/-- C9: the claim reads `getCoordinates` as an ordered strategy that
consults the live geocoding service first and the static table only
afterwards.  The code consults the static table (by exact key) before the
live service: for `"London"`, with the live service succeeding at other
coordinates, the code returns the static table entry, not the live
result. -/
theorem C9_counterexample :
    getCoordinates "London" (.success 1 2) = some (51.5074, -0.1278)
    ∧ specOrderedGeocode "London" (.success 1 2) = some (1, 2)
    ∧ getCoordinates "London" (.success 1 2)
        ≠ specOrderedGeocode "London" (.success 1 2) := by
  refine ⟨rfl, rfl, ?_⟩
  intro h
  rw [show getCoordinates "London" (.success 1 2) = some (51.5074, -0.1278) from rfl,
    show specOrderedGeocode "London" (.success 1 2) = some ((1 : ℚ), (2 : ℚ)) from rfl]
      at h
  simp only [Option.some.injEq, Prod.mk.injEq] at h
  exact absurd h.1 (by norm_num)

/-- C9 (amended): `getCoordinates` resolves by the ordered strategy
static-table exact match first, then the live service, then static-table
lookup by substring containment, returning the first match; on total
failure it returns `null` without raising — it never silently defaults to
a fixed city's coordinates. -/
theorem C9_amended (city : String) (live : GeoLive) :
    (∀ c, exactLookup (trimStr (toLowerStr city)) = some c →
      getCoordinates city live = some c)
    ∧ (∀ lat lng, exactLookup (trimStr (toLowerStr city)) = none →
        live = .success lat lng → getCoordinates city live = some (lat, lng))
    ∧ (exactLookup (trimStr (toLowerStr city)) = none →
        (∀ lat lng, live ≠ .success lat lng) →
        substringLookup (trimStr (toLowerStr city)) = none →
        getCoordinates city live = none) := by
  refine ⟨?_, ?_, ?_⟩
  · intro c hc
    simp [getCoordinates, hc]
  · intro lat lng hnone hlive
    simp [getCoordinates, hnone, hlive]
  · intro hnone hlive hsub
    cases live with
    | success lat lng => exact absurd rfl (hlive lat lng)
    | noMatch => simp [getCoordinates, hnone, hsub]
    | failed => simp [getCoordinates, hnone, hsub]

/-- Witness for `C9_amended`: an unresolvable name with a failed live
lookup yields `none`. -/
theorem C9_amended_witness : getCoordinates "zzz" .failed = none :=
  (C9_amended "zzz" .failed).2.2 (by decide)
    (fun lat lng h => by cases h) (by decide)

section C4Lemmas

theorem list_sum_map_eq_fin_sum (l : List α) (f : α → ℚ) :
    (l.map f).sum = ∑ i : Fin l.length, f (l.get i) := by
  conv_lhs => rw [← List.ofFn_get l]
  rw [List.map_ofFn, List.sum_ofFn]
  rfl

theorem center_sum (n : ℕ) (x y : Fin n → ℚ) :
    ∑ i, ((n : ℚ) * x i - ∑ j, x j) * ((n : ℚ) * y i - ∑ j, y j)
      = (n : ℚ) * ((n : ℚ) * (∑ i, x i * y i) - (∑ i, x i) * (∑ i, y i)) := by
  have h : ∀ i ∈ Finset.univ (α := Fin n),
      ((n : ℚ) * x i - ∑ j, x j) * ((n : ℚ) * y i - ∑ j, y j)
        = (n : ℚ) ^ 2 * (x i * y i) - ((n : ℚ) * (∑ j, y j)) * x i
          - ((n : ℚ) * (∑ j, x j)) * y i + (∑ j, x j) * (∑ j, y j) := by
    intro i _; ring
  rw [Finset.sum_congr rfl h]
  simp only [Finset.sum_add_distrib, Finset.sum_sub_distrib, ← Finset.mul_sum,
    Finset.sum_const, Finset.card_univ, Fintype.card_fin, nsmul_eq_mul]
  ring

theorem fin_corr_cauchy_schwarz (n : ℕ) (x y : Fin n → ℚ) :
    ((n : ℚ) * (∑ i, x i * y i) - (∑ i, x i) * (∑ i, y i)) ^ 2
      ≤ ((n : ℚ) * (∑ i, x i * x i) - (∑ i, x i) * (∑ i, x i))
        * ((n : ℚ) * (∑ i, y i * y i) - (∑ i, y i) * (∑ i, y i)) := by
  rcases Nat.eq_zero_or_pos n with hn | hn
  · subst hn; simp
  · have key := Finset.sum_mul_sq_le_sq_mul_sq Finset.univ
      (fun i => (n : ℚ) * x i - ∑ j, x j) (fun i => (n : ℚ) * y i - ∑ j, y j)
    simp only [pow_two] at key
    rw [center_sum n x y, center_sum n x x, center_sum n y y] at key
    have hn2 : (0 : ℚ) < (n : ℚ) * (n : ℚ) := by
      have : (0 : ℚ) < (n : ℚ) := by exact_mod_cast hn
      positivity
    have key2 : ((n : ℚ) * (n : ℚ))
          * (((n : ℚ) * (∑ i, x i * y i) - (∑ i, x i) * (∑ i, y i))
            * ((n : ℚ) * (∑ i, x i * y i) - (∑ i, x i) * (∑ i, y i)))
        ≤ ((n : ℚ) * (n : ℚ))
          * (((n : ℚ) * (∑ i, x i * x i) - (∑ i, x i) * (∑ i, x i))
            * ((n : ℚ) * (∑ i, y i * y i) - (∑ i, y i) * (∑ i, y i))) := by
      nlinarith [key]
    have := le_of_mul_le_mul_left key2 hn2
    nlinarith [this]

theorem corrNum_sq_le_corrDenSq (l : List AstronomicalDataItem) :
    (Conclusions.corrNum l) ^ 2 ≤ Conclusions.corrDenSq l := by
  have h := fin_corr_cauchy_schwarz l.length
    (fun i => (l.get i).latitude) (fun i => (l.get i).day_length / 60)
  simp only [Conclusions.corrNum, Conclusions.corrDenSq,
    list_sum_map_eq_fin_sum, pow_two] at h ⊢
  exact h

theorem corrDenSq_nonneg (l : List AstronomicalDataItem) :
    0 ≤ Conclusions.corrDenSq l :=
  le_trans (sq_nonneg _) (corrNum_sq_le_corrDenSq l)

theorem abs_correlationValue_le_one (l : List AstronomicalDataItem) :
    |Conclusions.correlationValue l| ≤ 1 := by
  unfold Conclusions.correlationValue
  split_ifs with h
  · simp
  · have hd : (0 : ℚ) < Conclusions.corrDenSq l :=
      lt_of_le_of_ne (corrDenSq_nonneg l) (Ne.symm h)
    have hdR : (0 : ℝ) < ((Conclusions.corrDenSq l : ℚ) : ℝ) := by exact_mod_cast hd
    have hsq : ((Conclusions.corrNum l : ℚ) : ℝ) ^ 2
        ≤ ((Conclusions.corrDenSq l : ℚ) : ℝ) := by
      exact_mod_cast corrNum_sq_le_corrDenSq l
    have hs := Real.sqrt_le_sqrt hsq
    rw [Real.sqrt_sq_eq_abs] at hs
    have hsp : 0 < Real.sqrt ((Conclusions.corrDenSq l : ℚ) : ℝ) :=
      Real.sqrt_pos.mpr hdR
    rw [abs_div, abs_of_pos hsp]
    exact (div_le_one hsp).mpr hs

theorem round2R_bounds {x : ℝ} (h : |x| ≤ 1) :
    -1 ≤ Conclusions.round2R x ∧ Conclusions.round2R x ≤ 1 := by
  obtain ⟨h1, h2⟩ := abs_le.mp h
  unfold Conclusions.round2R
  rw [round_eq]
  have hlow : (-100 : ℤ) ≤ ⌊x * 100 + 1 / 2⌋ :=
    Int.le_floor.mpr (by push_cast; linarith)
  have hhigh : ⌊x * 100 + 1 / 2⌋ ≤ 100 := by
    have h101 : ⌊x * 100 + 1 / 2⌋ < 101 := Int.floor_lt.mpr (by push_cast; linarith)
    omega
  have hlowR : ((-100 : ℤ) : ℝ) ≤ (⌊x * 100 + 1 / 2⌋ : ℝ) := by exact_mod_cast hlow
  have hhighR : ((⌊x * 100 + 1 / 2⌋ : ℤ) : ℝ) ≤ ((100 : ℤ) : ℝ) := by
    exact_mod_cast hhigh
  push_cast at hlowR hhighR
  constructor <;> [linarith; linarith]

end C4Lemmas

/-- C4 (amended): every coefficient `latitudeInsight` actually reports
lies in [-1, 1] (Cauchy–Schwarz, preserved by the two-decimal rounding),
and it is 0 whenever the correlation denominator is zero; but with fewer
than three records the insight is `null` — an absent result — rather than
the 0 the claim requires. -/
theorem C4_amended (l : List AstronomicalDataItem) :
    (∀ c, Conclusions.latitudeInsight l = some c → -1 ≤ c ∧ c ≤ 1)
    ∧ (3 ≤ l.length → Conclusions.corrDenSq l = 0 →
        Conclusions.latitudeInsight l = some 0)
    ∧ (l.length < 3 → Conclusions.latitudeInsight l = none) := by
  refine ⟨?_, ?_, ?_⟩
  · intro c hc
    unfold Conclusions.latitudeInsight at hc
    split_ifs at hc with hlen
    all_goals cases hc
    exact round2R_bounds (abs_correlationValue_le_one l)
  · intro hlen hden
    unfold Conclusions.latitudeInsight
    rw [if_neg (by omega)]
    have hcv : Conclusions.correlationValue l = 0 := by
      unfold Conclusions.correlationValue
      rw [if_pos hden]
    rw [hcv]
    unfold Conclusions.round2R
    norm_num
  · intro hlen
    unfold Conclusions.latitudeInsight
    rw [if_pos hlen]

/-- C4: with only two records the insight is `null` (the latitude card is
simply absent), not the reported 0 the claim requires. -/
theorem C4_counterexample :
    Conclusions.latitudeInsight
        [{ location := "Oslo", latitude := 60, longitude := 10,
           date := ⟨2024, 6, 1⟩, sunrise := 0, sunset := 0, day_length := 64800,
           solar_noon := 0, source := "sunrise-sunset.org" },
         { location := "Oslo", latitude := 60, longitude := 10,
           date := ⟨2024, 12, 1⟩, sunrise := 0, sunset := 0, day_length := 21600,
           solar_noon := 0, source := "sunrise-sunset.org" }] = none
    ∧ Conclusions.latitudeInsight
        [{ location := "Oslo", latitude := 60, longitude := 10,
           date := ⟨2024, 6, 1⟩, sunrise := 0, sunset := 0, day_length := 64800,
           solar_noon := 0, source := "sunrise-sunset.org" },
         { location := "Oslo", latitude := 60, longitude := 10,
           date := ⟨2024, 12, 1⟩, sunrise := 0, sunset := 0, day_length := 21600,
           solar_noon := 0, source := "sunrise-sunset.org" }] ≠ some 0 := by
  have h : Conclusions.latitudeInsight
      [{ location := "Oslo", latitude := 60, longitude := 10,
         date := ⟨2024, 6, 1⟩, sunrise := 0, sunset := 0, day_length := 64800,
         solar_noon := 0, source := "sunrise-sunset.org" },
       { location := "Oslo", latitude := 60, longitude := 10,
         date := ⟨2024, 12, 1⟩, sunrise := 0, sunset := 0, day_length := 21600,
         solar_noon := 0, source := "sunrise-sunset.org" }] = none := by
    unfold Conclusions.latitudeInsight
    rw [if_pos (by norm_num)]
  exact ⟨h, by rw [h]; exact fun hc => Option.noConfusion hc⟩

/-- Witness for `C4_amended`: three same-latitude records give a zero
denominator, and the reported coefficient is 0. -/
theorem C4_amended_witness :
    Conclusions.latitudeInsight
        [{ location := "Oslo", latitude := 60, longitude := 10,
           date := ⟨2024, 6, 1⟩, sunrise := 0, sunset := 0, day_length := 64800,
           solar_noon := 0, source := "sunrise-sunset.org" },
         { location := "Oslo", latitude := 60, longitude := 10,
           date := ⟨2024, 7, 1⟩, sunrise := 0, sunset := 0, day_length := 60000,
           solar_noon := 0, source := "sunrise-sunset.org" },
         { location := "Oslo", latitude := 60, longitude := 10,
           date := ⟨2024, 12, 1⟩, sunrise := 0, sunset := 0, day_length := 21600,
           solar_noon := 0, source := "sunrise-sunset.org" }] = some 0 :=
  (C4_amended _).2.1 (by norm_num)
    (by norm_num [Conclusions.corrDenSq])

/-- On a date-sorted group with strictly increasing dates, the code's
`totalChange` accumulation equals the sum of the spec's per-step rates. -/
theorem totalChange_eq_specStepRates_sum :
    ∀ l : List AstronomicalDataItem,
      List.Chain' (fun a b => daysFromCivil a.date < daysFromCivil b.date) l →
      Conclusions.totalChange l = (Conclusions.specStepRates l).sum
  | [], _ => rfl
  | [_], _ => rfl
  | a :: b :: rest, h => by
      obtain ⟨hab, h2⟩ := List.chain'_cons.mp h
      have hposZ : (0 : ℤ) < daysFromCivil b.date - daysFromCivil a.date := by
        omega
      have hpos : (0 : ℚ) < ((daysFromCivil b.date - daysFromCivil a.date : ℤ) : ℚ) := by
        exact_mod_cast hposZ
      rw [Conclusions.totalChange, Conclusions.specStepRates, List.sum_cons,
        totalChange_eq_specStepRates_sum (b :: rest) h2, if_pos hpos]
      have harith : (b.day_length / 60 - a.day_length / 60)
            / ((daysFromCivil b.date - daysFromCivil a.date : ℤ) : ℚ)
          = (b.day_length - a.day_length) / 60
            / ((daysFromCivil b.date - daysFromCivil a.date : ℤ) : ℚ) := by
        ring
      rw [harith]

def c5RecJun1 : AstronomicalDataItem :=
  { location := "Oslo", latitude := 60, longitude := 10, date := ⟨2024, 6, 1⟩,
    sunrise := 0, sunset := 36000, day_length := 36000, solar_noon := 18000,
    source := "sunrise-sunset.org" }

def c5RecJun2 : AstronomicalDataItem :=
  { location := "Oslo", latitude := 60, longitude := 10, date := ⟨2024, 6, 2⟩,
    sunrise := 0, sunset := 36600, day_length := 36600, solar_noon := 18300,
    source := "sunrise-sunset.org" }

/-- C5: for a location group with at least two records and strictly
ascending dates after the ascending date sort, the code's change rate is
the equal-weight average of the spec's per-step rates
`(dayLength_i − dayLength_{i−1}) / daysBetween` (sum divided by the
number of gaps, not a single whole-span slope), the direction is
classified by the ±1 minute/day thresholds on that average, and the
two-record 600/610-minute one-day-apart example yields `increasing`
with change rate 10.0. -/
theorem C5_trend (loc : String) (items : List AstronomicalDataItem)
    (h2 : 2 ≤ items.length)
    (hchain : List.Chain' (fun a b => daysFromCivil a.date < daysFromCivil b.date)
      (Conclusions.sortByDate items)) :
    ((Conclusions.trendOf loc items).changeRate
        = round1 ((Conclusions.specStepRates (Conclusions.sortByDate items)).sum
            / ((items.length : ℚ) - 1)))
    ∧ ((Conclusions.specStepRates (Conclusions.sortByDate items)).sum
          / ((items.length : ℚ) - 1) > 1 →
        (Conclusions.trendOf loc items).trend = .increasing)
    ∧ ((Conclusions.specStepRates (Conclusions.sortByDate items)).sum
          / ((items.length : ℚ) - 1) < -1 →
        (Conclusions.trendOf loc items).trend = .decreasing)
    ∧ (¬((Conclusions.specStepRates (Conclusions.sortByDate items)).sum
          / ((items.length : ℚ) - 1) > 1) →
       ¬((Conclusions.specStepRates (Conclusions.sortByDate items)).sum
          / ((items.length : ℚ) - 1) < -1) →
        (Conclusions.trendOf loc items).trend = .stable)
    ∧ Conclusions.locationTrends [c5RecJun1, c5RecJun2]
        = [{ location := "Oslo", trend := .increasing, changeRate := 10 }] := by
  have havg : Conclusions.avgChange items
      = (Conclusions.specStepRates (Conclusions.sortByDate items)).sum
          / ((items.length : ℚ) - 1) := by
    unfold Conclusions.avgChange
    rw [totalChange_eq_specStepRates_sum _ hchain]
  refine ⟨?_, ?_, ?_, ?_, ?_⟩
  · simp [Conclusions.trendOf, havg]
  · intro h
    simp [Conclusions.trendOf, havg, h]
  · intro h
    have h1 : ¬((Conclusions.specStepRates (Conclusions.sortByDate items)).sum
        / ((items.length : ℚ) - 1) > 1) := by linarith
    simp [Conclusions.trendOf, havg, h, h1]
  · intro hgt hlt
    simp [Conclusions.trendOf, havg, hgt, hlt]
  · have hd1 : daysFromCivil ⟨2024, 6, 1⟩ = 19875 := by decide
    have hd2 : daysFromCivil ⟨2024, 6, 2⟩ = 19876 := by decide
    simp [Conclusions.locationTrends, keysInOrder, Conclusions.trendOf,
      Conclusions.avgChange, Conclusions.totalChange, Conclusions.sortByDate,
      sortBy, insertBy, round1, round_eq, hd1, hd2, c5RecJun1, c5RecJun2]
    norm_num

/-- Witness for `C5_trend` at the spec's two-record example. -/
theorem C5_trend_witness :
    Conclusions.locationTrends [c5RecJun1, c5RecJun2]
      = [{ location := "Oslo", trend := .increasing, changeRate := 10 }] :=
  (C5_trend "Oslo" [c5RecJun1, c5RecJun2] (by norm_num)
    (by
      have hs : Conclusions.sortByDate [c5RecJun1, c5RecJun2]
          = [c5RecJun1, c5RecJun2] := rfl
      rw [hs]
      exact List.chain'_cons.mpr ⟨by decide, List.chain'_singleton _⟩)).2.2.2.2

def c6SummerRec : AstronomicalDataItem :=
  { location := "Oslo", latitude := 60, longitude := 10, date := ⟨2024, 6, 1⟩,
    sunrise := 0, sunset := 64800, day_length := 64800, solar_noon := 32400,
    source := "sunrise-sunset.org" }

def c6WinterRec : AstronomicalDataItem :=
  { location := "Oslo", latitude := 60, longitude := 10, date := ⟨2024, 12, 1⟩,
    sunrise := 0, sunset := 21600, day_length := 21600, solar_noon := 10800,
    source := "sunrise-sunset.org" }

def c6RecA : AstronomicalDataItem :=
  { location := "A", latitude := 50, longitude := 0, date := ⟨2024, 7, 4⟩,
    sunrise := 0, sunset := 36000, day_length := 36000, solar_noon := 18000,
    source := "sunrise-sunset.org" }

def c6RecB : AstronomicalDataItem :=
  { location := "B", latitude := 50, longitude := 0, date := ⟨2024, 7, 5⟩,
    sunrise := 0, sunset := 36000, day_length := 36000, solar_noon := 18000,
    source := "sunrise-sunset.org" }

/-- C6: the month-of-date bucketing agrees with the Northern-hemisphere
mapping Dec–Feb = Winter, Mar–May = Spring, Jun–Aug = Summer,
Sep–Nov = Fall on every calendar month (so each record lands in exactly
the one season of its month); 2024-01-15 is Winter and 2024-07-04 is
Summer; each season present reports the rounded mean day length in whole
minutes and the top locations by that season's average day length — the
spec's Oslo example gives Winter 360 / Summer 1080 minutes, and two
locations tied on average are listed in first-encountered order of the
grouping. -/
theorem C6_seasonal (m : ℕ) (h1 : 1 ≤ m) (h12 : m ≤ 12) :
    Conclusions.seasonOfMonth0 (m - 1) = Conclusions.specSeasonOfMonth m
    ∧ Conclusions.seasonOf ⟨2024, 1, 15⟩ = .winter
    ∧ Conclusions.seasonOf ⟨2024, 7, 4⟩ = .summer
    ∧ Conclusions.seasonalPatterns [c6SummerRec, c6WinterRec]
        = [{ season := .winter, avgDayLength := 360, locations := ["Oslo"] },
           { season := .summer, avgDayLength := 1080, locations := ["Oslo"] }]
    ∧ Conclusions.seasonalPatterns [c6RecA, c6RecB]
        = [{ season := .summer, avgDayLength := 600, locations := ["A", "B"] }] := by
  refine ⟨?_, by decide, by decide, ?_, ?_⟩
  · interval_cases m <;> rfl
  · simp [Conclusions.seasonalPatterns, Conclusions.seasonalPattern,
      keysInOrder, Conclusions.seasonOf, Conclusions.seasonOfMonth0,
      Conclusions.seasonOrder, sortBy, insertBy, round_eq,
      c6SummerRec, c6WinterRec]
    norm_num
  · simp [Conclusions.seasonalPatterns, Conclusions.seasonalPattern,
      keysInOrder, Conclusions.seasonOf, Conclusions.seasonOfMonth0,
      Conclusions.seasonOrder, sortBy, insertBy, round_eq,
      c6RecA, c6RecB]
    norm_num

/-- Witness for `C6_seasonal` at the concrete month July. -/
theorem C6_seasonal_witness :
    Conclusions.seasonOfMonth0 6 = Conclusions.specSeasonOfMonth 7 :=
  (C6_seasonal 7 (by norm_num) (by norm_num)).1

theorem applyFilters_emptyFilters (d : List AstronomicalDataItem) :
    Visualize.applyFilters Visualize.emptyFilters d = d := by
  simp [Visualize.applyFilters, Visualize.emptyFilters]

theorem applyFilters_nil (f : Visualize.Filters) :
    Visualize.applyFilters f [] = [] := by
  simp [Visualize.applyFilters]

def c7RecAA1 : AstronomicalDataItem :=
  { location := "aa", latitude := 50, longitude := 0, date := ⟨2024, 6, 1⟩,
    sunrise := 0, sunset := 36000, day_length := 36000, solar_noon := 18000,
    source := "sunrise-sunset.org" }

def c7RecAA2 : AstronomicalDataItem :=
  { location := "aa", latitude := 50, longitude := 0, date := ⟨2024, 6, 2⟩,
    sunrise := 0, sunset := 36600, day_length := 36600, solar_noon := 18300,
    source := "sunrise-sunset.org" }

def c7RecBB1 : AstronomicalDataItem :=
  { location := "bb", latitude := 55, longitude := 0, date := ⟨2024, 6, 1⟩,
    sunrise := 0, sunset := 36000, day_length := 36000, solar_noon := 18000,
    source := "sunrisesunset.io" }

def c7RecBB2 : AstronomicalDataItem :=
  { location := "bb", latitude := 55, longitude := 0, date := ⟨2024, 6, 2⟩,
    sunrise := 0, sunset := 37800, day_length := 37800, solar_noon := 18900,
    source := "sunrisesunset.io" }

/-- C7: the claim requires every statistic — including the trend,
seasonal and correlation statistics — to equal the unfiltered statistic
computed on the subset passing the filter.  The trend statistic is
computed by the conclusions page on the full record set with no filter
at all: filtering out location "bb" changes the trends, so the unfiltered
trend statistic does not equal the statistic on the filtered subset. -/
theorem C7_counterexample :
    Conclusions.locationTrends
        (Visualize.applyFilters { cityFilter := "aa", startDate := none, endDate := none }
          [c7RecAA1, c7RecAA2, c7RecBB1, c7RecBB2])
      ≠ Conclusions.locationTrends [c7RecAA1, c7RecAA2, c7RecBB1, c7RecBB2] := by
  have happ : Visualize.applyFilters
      { cityFilter := "aa", startDate := none, endDate := none }
      [c7RecAA1, c7RecAA2, c7RecBB1, c7RecBB2] = [c7RecAA1, c7RecAA2] := rfl
  rw [happ]
  have hd1 : daysFromCivil ⟨2024, 6, 1⟩ = 19875 := by decide
  have hd2 : daysFromCivil ⟨2024, 6, 2⟩ = 19876 := by decide
  have h1 : Conclusions.locationTrends [c7RecAA1, c7RecAA2]
      = [{ location := "aa", trend := .increasing, changeRate := 10 }] := by
    simp [Conclusions.locationTrends, keysInOrder, Conclusions.trendOf,
      Conclusions.avgChange, Conclusions.totalChange, Conclusions.sortByDate,
      sortBy, insertBy, round1, round_eq, hd1, hd2, c7RecAA1, c7RecAA2]
    norm_num
  have h2 : Conclusions.locationTrends [c7RecAA1, c7RecAA2, c7RecBB1, c7RecBB2]
      = [{ location := "bb", trend := .increasing, changeRate := 30 },
         { location := "aa", trend := .increasing, changeRate := 10 }] := by
    simp [Conclusions.locationTrends, keysInOrder, Conclusions.trendOf,
      Conclusions.avgChange, Conclusions.totalChange, Conclusions.sortByDate,
      sortBy, insertBy, round1, round_eq, hd1, hd2,
      c7RecAA1, c7RecAA2, c7RecBB1, c7RecBB2]
    norm_num
  rw [h1, h2]
  simp

/-- C7 (amended): within the visualization page the location-substring and
date-range filters are applied identically and independently — through the
one `applyFilters` function — to the aggregate statistics, the per-location
averages, the per-source distribution and the latitude/day-length scatter
data, each equal to the unfiltered statistic computed on exactly the
filtered subset; the trend, seasonal and correlation statistics of the
conclusions page take no filter and are computed on the full record set. -/
theorem C7_amended (f : Visualize.Filters) (d : List AstronomicalDataItem) :
    Visualize.stats f d
        = Visualize.stats Visualize.emptyFilters (Visualize.applyFilters f d)
    ∧ Visualize.scatterData f d
        = Visualize.scatterData Visualize.emptyFilters (Visualize.applyFilters f d) := by
  have happ : Visualize.applyFilters Visualize.emptyFilters
      (Visualize.applyFilters f d) = Visualize.applyFilters f d :=
    applyFilters_emptyFilters _
  constructor
  · by_cases hd : d.isEmpty
    · have hnil : d = [] := List.isEmpty_iff.mp hd
      subst hnil
      rw [applyFilters_nil]
      simp [Visualize.stats]
    · simp only [Visualize.stats, happ]
      rw [if_neg hd]
      by_cases hf : (Visualize.applyFilters f d).isEmpty
      · rw [if_pos hf, if_pos hf]
      · rw [if_neg hf, if_neg hf]
  · by_cases hd : d.isEmpty
    · have hnil : d = [] := List.isEmpty_iff.mp hd
      subst hnil
      rw [applyFilters_nil]
      simp [Visualize.scatterData]
    · by_cases hf : (Visualize.applyFilters f d).isEmpty
      · have hnil : Visualize.applyFilters f d = [] := List.isEmpty_iff.mp hf
        simp [Visualize.scatterData, hd, hnil]
      · simp only [Visualize.scatterData, happ]
        rw [if_neg hd, if_neg hf]

/-- Pairs with a non-positive day gap contribute nothing to the summed
rate: `totalChange` always equals the sum over the positive-gap pairs. -/
theorem totalChange_eq_posStepRates_sum :
    ∀ l : List AstronomicalDataItem,
      Conclusions.totalChange l = (Conclusions.posStepRates l).sum
  | [] => rfl
  | [_] => rfl
  | a :: b :: rest => by
      rw [Conclusions.totalChange, Conclusions.posStepRates,
        totalChange_eq_posStepRates_sum (b :: rest)]
      by_cases hlt : daysFromCivil a.date < daysFromCivil b.date <;> simp [hlt]

theorem posStepRates_length_le :
    ∀ l : List AstronomicalDataItem,
      (Conclusions.posStepRates l).length ≤ l.length - 1
  | [] => by simp [Conclusions.posStepRates]
  | [_] => by simp [Conclusions.posStepRates]
  | a :: b :: rest => by
      have ih := posStepRates_length_le (b :: rest)
      rw [Conclusions.posStepRates]
      by_cases hlt : daysFromCivil a.date < daysFromCivil b.date <;>
        simp [hlt, List.length_cons] at ih ⊢ <;> omega

/-- An adjacent same-date pair in the sorted group makes the positive-gap
pair count strictly smaller than the divisor `length - 1`. -/
theorem posStepRates_length_lt :
    ∀ (l1 : List AstronomicalDataItem) (a b : AstronomicalDataItem)
      (l2 : List AstronomicalDataItem),
      daysFromCivil a.date = daysFromCivil b.date →
      (Conclusions.posStepRates (l1 ++ a :: b :: l2)).length
        < (l1 ++ a :: b :: l2).length - 1
  | [], a, b, l2, h => by
      have hlt : ¬ daysFromCivil a.date < daysFromCivil b.date := by omega
      have ih := posStepRates_length_le (b :: l2)
      rw [List.nil_append, Conclusions.posStepRates]
      simp [hlt, List.length_cons] at ih ⊢
      omega
  | c :: l1, a, b, l2, h => by
      have ih := posStepRates_length_lt l1 a b l2 h
      rcases hex : l1 ++ a :: b :: l2 with _ | ⟨x, xs⟩
      · exact absurd hex (by simp)
      · rw [List.cons_append, hex, Conclusions.posStepRates]
        rw [hex] at ih
        by_cases hlt : daysFromCivil c.date < daysFromCivil x.date <;>
          simp [hlt, List.length_cons] at ih ⊢ <;> omega

def c10RecDup1 : AstronomicalDataItem :=
  { location := "x", latitude := 50, longitude := 0, date := ⟨2024, 6, 1⟩,
    sunrise := 0, sunset := 36000, day_length := 36000, solar_noon := 18000,
    source := "sunrise-sunset.org" }

def c10RecDup2 : AstronomicalDataItem :=
  { location := "x", latitude := 50, longitude := 0, date := ⟨2024, 6, 1⟩,
    sunrise := 0, sunset := 36000, day_length := 36000, solar_noon := 18000,
    source := "sunrisesunset.io" }

def c10RecNext : AstronomicalDataItem :=
  { location := "x", latitude := 50, longitude := 0, date := ⟨2024, 6, 2⟩,
    sunrise := 0, sunset := 36006, day_length := 36006, solar_noon := 18003,
    source := "sunrise-sunset.org" }

def c10RecNextBig : AstronomicalDataItem :=
  { location := "x", latitude := 50, longitude := 0, date := ⟨2024, 6, 2⟩,
    sunrise := 0, sunset := 36600, day_length := 36600, solar_noon := 18300,
    source := "sunrise-sunset.org" }

/-- C10: two same-date records plus a third one day later with a
0.1-minute/day positive-gap rate.  The zero-gap pair contributes nothing
but still counts in the divisor, so the pre-rounding average is 0.05;
after the one-decimal rounding the reported changeRate is 0.1 — equal to,
not strictly smaller in magnitude than, the positive-gap-pair average. -/
theorem C10_counterexample :
    Conclusions.locationTrends [c10RecDup1, c10RecDup2, c10RecNext]
        = [{ location := "x", trend := .stable, changeRate := 1 / 10 }]
    ∧ Conclusions.sortByDate [c10RecDup1, c10RecDup2, c10RecNext]
        = [] ++ c10RecDup1 :: c10RecDup2 :: [c10RecNext]
    ∧ daysFromCivil c10RecDup1.date = daysFromCivil c10RecDup2.date
    ∧ (Conclusions.posStepRates
        (Conclusions.sortByDate [c10RecDup1, c10RecDup2, c10RecNext])).sum
        = 1 / 10
    ∧ ((Conclusions.posStepRates
        (Conclusions.sortByDate [c10RecDup1, c10RecDup2, c10RecNext])).length : ℚ)
        = 1
    ∧ ¬(|(1 : ℚ) / 10| < |(1 : ℚ) / 10 / 1|) := by
  have hd1 : daysFromCivil ⟨2024, 6, 1⟩ = 19875 := by decide
  have hd2 : daysFromCivil ⟨2024, 6, 2⟩ = 19876 := by decide
  refine ⟨?_, rfl, by decide, ?_, ?_, by norm_num⟩
  · simp [Conclusions.locationTrends, keysInOrder, Conclusions.trendOf,
      Conclusions.avgChange, Conclusions.totalChange, Conclusions.sortByDate,
      sortBy, insertBy, round1, round_eq, hd1, hd2,
      c10RecDup1, c10RecDup2, c10RecNext]
    norm_num
  · simp [Conclusions.posStepRates, Conclusions.sortByDate, sortBy, insertBy,
      hd1, hd2, c10RecDup1, c10RecDup2, c10RecNext]
    norm_num
  · simp [Conclusions.posStepRates, Conclusions.sortByDate, sortBy, insertBy,
      hd1, hd2, c10RecDup1, c10RecDup2, c10RecNext]

/-- C10 (amended): in the per-location trend computation a same-date
consecutive pair contributes nothing to the summed rate yet still counts
in the `record count − 1` divisor, so for a location whose sorted records
contain a same-date adjacent pair and whose positive-gap rates have
nonzero sum, the pre-rounding average rate is strictly smaller in
magnitude than the positive-gap-pair average (the reported changeRate,
rounded to one decimal, can close that gap, as the counterexample shows). -/
theorem C10_amended (items : List AstronomicalDataItem)
    (l1 : List AstronomicalDataItem) (a b : AstronomicalDataItem)
    (l2 : List AstronomicalDataItem)
    (hdec : Conclusions.sortByDate items = l1 ++ a :: b :: l2)
    (hdup : daysFromCivil a.date = daysFromCivil b.date)
    (hS : (Conclusions.posStepRates (Conclusions.sortByDate items)).sum ≠ 0) :
    Conclusions.totalChange (Conclusions.sortByDate items)
        = (Conclusions.posStepRates (Conclusions.sortByDate items)).sum
    ∧ |Conclusions.avgChange items|
        < |(Conclusions.posStepRates (Conclusions.sortByDate items)).sum|
          / ((Conclusions.posStepRates (Conclusions.sortByDate items)).length : ℚ) := by
  refine ⟨totalChange_eq_posStepRates_sum _, ?_⟩
  have hp1 : 1 ≤ (Conclusions.posStepRates (Conclusions.sortByDate items)).length := by
    rcases hl : Conclusions.posStepRates (Conclusions.sortByDate items) with _ | ⟨x, xs⟩
    · exact absurd (by rw [hl]; simp) hS
    · simp [hl]
  have hlt : (Conclusions.posStepRates (Conclusions.sortByDate items)).length
      < (Conclusions.sortByDate items).length - 1 := by
    rw [hdec]
    exact posStepRates_length_lt l1 a b l2 hdup
  have hlen : (Conclusions.sortByDate items).length = items.length :=
    sortBy_length _ items
  have h2 : 2 ≤ items.length := by
    rw [← hlen, hdec]
    simp [List.length_append]
    omega
  have havg : Conclusions.avgChange items
      = (Conclusions.posStepRates (Conclusions.sortByDate items)).sum
        / ((items.length : ℚ) - 1) := by
    unfold Conclusions.avgChange
    rw [totalChange_eq_posStepRates_sum]
  have hSpos : 0 < |(Conclusions.posStepRates (Conclusions.sortByDate items)).sum| :=
    abs_pos.mpr hS
  have hpQ : (0 : ℚ)
      < ((Conclusions.posStepRates (Conclusions.sortByDate items)).length : ℚ) := by
    exact_mod_cast hp1
  have hn1Q : (0 : ℚ) < (items.length : ℚ) - 1 := by
    have : (2 : ℚ) ≤ (items.length : ℚ) := by exact_mod_cast h2
    linarith
  have hplt : ((Conclusions.posStepRates (Conclusions.sortByDate items)).length : ℚ)
      < (items.length : ℚ) - 1 := by
    have hltn : (Conclusions.posStepRates (Conclusions.sortByDate items)).length
        < items.length - 1 := by omega
    have hc : ((items.length - 1 : ℕ) : ℚ) = (items.length : ℚ) - 1 := by
      have h1 : 1 ≤ items.length := by omega
      push_cast [h1]
      ring
    rw [← hc]
    exact_mod_cast hltn
  rw [havg, abs_div, abs_of_pos hn1Q]
  exact div_lt_div_of_pos_left hSpos hpQ hplt

/-- Witness for `C10_amended`: two same-date records plus one a day later
with a 10-minute/day rate; the pre-rounding average 5 is strictly below
the positive-gap average 10. -/
theorem C10_amended_witness :
    |Conclusions.avgChange [c10RecDup1, c10RecDup2, c10RecNextBig]|
      < |(Conclusions.posStepRates
          (Conclusions.sortByDate [c10RecDup1, c10RecDup2, c10RecNextBig])).sum|
        / ((Conclusions.posStepRates
          (Conclusions.sortByDate [c10RecDup1, c10RecDup2, c10RecNextBig])).length : ℚ) :=
  (C10_amended [c10RecDup1, c10RecDup2, c10RecNextBig]
    [] c10RecDup1 c10RecDup2 [c10RecNextBig] rfl (by decide)
    (by
      have hd1 : daysFromCivil ⟨2024, 6, 1⟩ = 19875 := by decide
      have hd2 : daysFromCivil ⟨2024, 6, 2⟩ = 19876 := by decide
      simp [Conclusions.posStepRates, Conclusions.sortByDate, sortBy, insertBy,
        hd1, hd2, c10RecDup1, c10RecDup2, c10RecNextBig]
      norm_num)).2
